import Mathlib

/-!
Shallow embedding of `src/ProdCreator.py` (Autocreator).

The repository batch-generates product listings: a retry wrapper around a
text-generation HTTP endpoint (`MistralAPI._make_request`), four text
operations (`generate_title`, `generate_description`, `generate_image_prompt`,
`generate_tags`), one image-generation helper (`generate_image`), and a
per-row orchestration loop in `main`.

The network is modelled as an oracle: for one `_make_request` call, a function
`Nat → Outcome` giving the observable outcome of the HTTP attempt with each
loop index; for one `generate_image` call, a single `ImageOutcome`.  Sleeps
and request issuance are recorded in an event trace so that timing claims can
be stated.
-/

namespace ProdCreator

/-- Mirrors `MistralAPI.__init__` (src/ProdCreator.py lines 30-40): the retry
configuration fields.  `api_key`, `base_url` and `timeout` do not influence
the control flow being verified; `timeout` is kept for completeness. -/
structure MistralAPI where
  max_retries : Nat
  retry_delay : Nat
  timeout : Nat
deriving DecidableEq, Repr

/-- The values set in `MistralAPI.__init__`: 3 retries, 2 second delay,
30 second timeout. -/
def mistralDefault : MistralAPI := ⟨3, 2, 30⟩

/-- Observable outcome of one HTTP attempt inside `_make_request`:
* `status429 ra`: `response.status_code == 429`, with `ra` the numeric
  `Retry-After` header when present (`response.headers.get('Retry-After', …)`);
* `exn`: any exception raised in the `try` block (network error,
  `raise_for_status` on a non-2xx status, malformed JSON body);
* `ok content`: a 2xx response whose body has
  `json()['choices'][0]['message']['content']` equal to `content`. -/
inductive Outcome where
  | status429 : Option Nat → Outcome
  | exn : Outcome
  | ok : String → Outcome
deriving DecidableEq, Repr

/-- `true` exactly on a 429 outcome. -/
def Outcome.is429 : Outcome → Bool
  | Outcome.status429 _ => true
  | _ => false

/-- How one `_make_request` call ends:
* `value s`: `return response.json()[...]['content'].strip()` with result `s`;
* `raised`: the final `raise` re-raising the last exception;
* `noneReturn`: the `for` loop over `range(max_retries)` is exhausted by
  `continue` branches and control falls off the end of the function, so
  Python returns `None`. -/
inductive ReqResult where
  | value : String → ReqResult
  | raised : ReqResult
  | noneReturn : ReqResult
deriving DecidableEq, Repr

/-- Trace events of `_make_request`: `req a` records the HTTP POST issued on
loop iteration `a`; `slp n` records `time.sleep(n)`. -/
inductive Ev where
  | req : Nat → Ev
  | slp : Nat → Ev
deriving DecidableEq, Repr

/-- Python `str.strip()` as applied on line 79: remove leading and trailing
whitespace characters. -/
def pyStrip (s : String) : String :=
  String.mk (((s.data.dropWhile Char.isWhitespace).reverse.dropWhile
    Char.isWhitespace).reverse)

/-- The body of the `for attempt in range(self.max_retries)` loop of
`MistralAPI._make_request` (src/ProdCreator.py lines 54-86), iterating over
the remaining attempt indices.  On each iteration the request is issued
(`Ev.req attempt`); then
* on 429: `wait_time = int(response.headers.get('Retry-After',
  self.retry_delay * (attempt + 1)))`, sleep, `continue`;
* on a 2xx well-formed body: return the stripped content;
* on an exception: if `attempt < self.max_retries - 1`, sleep
  `self.retry_delay` and `continue`, else re-`raise`.
When the attempt list is exhausted, control falls off the function
(`noneReturn`). -/
def makeRequestGo (api : MistralAPI) (resp : Nat → Outcome) :
    List Nat → List Ev → ReqResult × List Ev
  | [], evs => (ReqResult.noneReturn, evs)
  | attempt :: rest, evs =>
    match resp attempt with
    | Outcome.status429 ra =>
        makeRequestGo api resp rest
          (evs ++ [Ev.req attempt, Ev.slp (ra.getD (api.retry_delay * (attempt + 1)))])
    | Outcome.ok content => (ReqResult.value (pyStrip content), evs ++ [Ev.req attempt])
    | Outcome.exn =>
        if attempt < api.max_retries - 1 then
          makeRequestGo api resp rest (evs ++ [Ev.req attempt, Ev.slp api.retry_delay])
        else
          (ReqResult.raised, evs ++ [Ev.req attempt])

/-- `MistralAPI._make_request(prompt)`: run the retry loop over attempt
indices `range(max_retries)`.  The prompt only shapes the JSON request body
(lines 62-68), not the control flow; the oracle `resp` abstracts the
network's replies to the request carrying this prompt. -/
def makeRequest (api : MistralAPI) (prompt : String) (resp : Nat → Outcome) :
    ReqResult × List Ev :=
  makeRequestGo api resp (List.range api.max_retries) []

/-- The double-quote character `\x22`, the argument of the
`.replace('\x22', '')` post-processing in the four generate methods. -/
def quoteChar : Char := Char.ofNat 34

/-- Python `.replace('\x22', '')`: replacing every double-quote character by
the empty string, i.e. removing every occurrence of `quoteChar`. -/
def stripQuotes (s : String) : String :=
  String.mk (s.data.filter (fun c => c != quoteChar))

/-- What a caller of `_make_request` observes, given how Python evaluates
`self._make_request(prompt).replace('\x22', '')`:
* `ok s`: the request returned a string and post-processing succeeded;
* `requestError`: `_make_request` raised, the exception propagates;
* `noneTypeError`: `_make_request` returned `None` (loop exhausted by 429
  `continue`s) and `.replace` on `None` raises an `AttributeError`. -/
inductive TextResult where
  | ok : String → TextResult
  | requestError : TextResult
  | noneTypeError : TextResult
deriving DecidableEq, Repr

/-- The f-string prompt of `generate_title` (line 98). -/
def titlePrompt (detail : String) : String :=
  "Generate a catchy title with theme: \x27" ++ detail ++ "\x27. Max 50 chars.\x27"

/-- The f-string prompt of `generate_description` (lines 112-115). -/
def descriptionPrompt (detail title : String) : String :=
  "Generate a compelling description for a product with:\n        Title: " ++
    title ++ "\n        Theme: " ++ detail ++ "\n        Maximum 150 characters."

/-- The f-string prompt of `generate_image_prompt` (line 130). -/
def imagePromptPrompt (detail : String) : String :=
  "Generate a creative image prompt for a T-shirt with theme: \x27" ++ detail ++
    "\x27. Max 75 chars."

/-- The f-string prompt of `generate_tags` (line 143). -/
def tagsPrompt (detail : String) : String :=
  "Generate relevant tags for a T-shirt with theme: \x27" ++ detail ++
    "\x27. Separate with commas."

/-- `MistralAPI.generate_title` (lines 88-99):
`return self._make_request(prompt).replace('\x22', '')`. -/
def generate_title (api : MistralAPI) (resp : Nat → Outcome) (detail : String) :
    TextResult :=
  match (makeRequest api (titlePrompt detail) resp).1 with
  | ReqResult.value s => TextResult.ok (stripQuotes s)
  | ReqResult.raised => TextResult.requestError
  | ReqResult.noneReturn => TextResult.noneTypeError

/-- `MistralAPI._get_template_description` (lines 146-157): the fixed HTML
template returned for all products, byte for byte. -/
def template_description : String :=
  "\n        <p>Acrylic art panels are a modern way to display beautiful and vibrant art that looks like it\x27s embedded in clear glass. \n        They have a clear, glossy acrylic surface and a white vinyl backing. Four silver stand-offs make it very easy to mount to the wall.</p>\n        <p>.: Material: Clear acrylic with white vinyl backing<br />\n        .: Clear, glossy surface<br />\n        .: Seven sizes to choose from<br />\n        .: Horizontal, vertical and square options available<br />\n        .: NB! For indoor use only</p>\n        "

/-- `MistralAPI.generate_description` (lines 101-118):
`description = self._make_request(prompt).replace('\x22', '')` followed by
`return description + self._get_template_description()`. -/
def generate_description (api : MistralAPI) (resp : Nat → Outcome)
    (detail title : String) : TextResult :=
  match (makeRequest api (descriptionPrompt detail title) resp).1 with
  | ReqResult.value s => TextResult.ok (stripQuotes s ++ template_description)
  | ReqResult.raised => TextResult.requestError
  | ReqResult.noneReturn => TextResult.noneTypeError

/-- `MistralAPI.generate_image_prompt` (lines 120-131):
`return self._make_request(prompt).replace('\x22', '')`. -/
def generate_image_prompt (api : MistralAPI) (resp : Nat → Outcome)
    (detail : String) : TextResult :=
  match (makeRequest api (imagePromptPrompt detail) resp).1 with
  | ReqResult.value s => TextResult.ok (stripQuotes s)
  | ReqResult.raised => TextResult.requestError
  | ReqResult.noneReturn => TextResult.noneTypeError

/-- `MistralAPI.generate_tags` (lines 133-144):
`return self._make_request(prompt).replace('\x22', '')`. -/
def generate_tags (api : MistralAPI) (resp : Nat → Outcome) (detail : String) :
    TextResult :=
  match (makeRequest api (tagsPrompt detail) resp).1 with
  | ReqResult.value s => TextResult.ok (stripQuotes s)
  | ReqResult.raised => TextResult.requestError
  | ReqResult.noneReturn => TextResult.noneTypeError

/-- An opaque stand-in for the PIL image object decoded from the fetched
bytes (`Image.open(io.BytesIO(image_response.content))`). -/
structure PILImage where
  bytes : List Nat
deriving DecidableEq, Repr

/-- Observable outcome of one image-generation round trip inside the `try`
block of `generate_image` (lines 170-182): either some step raised
(`client.images.generate`, reading `response.data[0].url`, the HTTP GET for
the bytes, or decoding them), or the whole round trip produced an image and
its URL. -/
inductive ImageOutcome where
  | exn : ImageOutcome
  | ok : PILImage → String → ImageOutcome

/-- `true` exactly when the image round trip succeeds. -/
def ImageOutcome.succeeds : ImageOutcome → Bool
  | ImageOutcome.ok _ _ => true
  | ImageOutcome.exn => false

/-- `generate_image(client, prompt)` (lines 159-186): on success returns
`(image, image_url)`; on any exception the handler logs and returns
`(None, None)`. -/
def generate_image : ImageOutcome → Option PILImage × Option String
  | ImageOutcome.ok img url => (some img, some url)
  | ImageOutcome.exn => (none, none)

/-- The external world as seen while processing one input row: one network
oracle per text-generation request (title, description, image prompt, tags,
in the order `main` issues them) and the outcome of the one image round
trip. -/
structure RowWorld where
  titleResp : Nat → Outcome
  descResp : Nat → Outcome
  imgPromptResp : Nat → Outcome
  tagsResp : Nat → Outcome
  imageResp : ImageOutcome

/-- The spec's `GeneratedContent`: the four per-row generated texts, as
bound by `main` (lines 224-231). -/
structure GeneratedContent where
  title : String
  description : String
  imagePrompt : String
  tags : String
deriving DecidableEq, Repr

/-- The `results` accumulator of `main` (lines 211-217): five parallel
lists, appended to together for each persisted row. -/
structure Results where
  file_name : List String
  local_path : List String
  title : List String
  description : List String
  tags : List String
deriving DecidableEq, Repr

/-- The initial empty `results` dictionary. -/
def emptyResults : Results := ⟨[], [], [], [], []⟩

/-- The deterministic image file name `f"image_{idx}.png"` (line 236). -/
def imageName (idx : Nat) : String := "image_" ++ toString idx ++ ".png"

/-- Lines 240-244: the five `append` calls storing one row's results. -/
def appendResult (res : Results) (file_name : String) (g : GeneratedContent) :
    Results :=
  ⟨res.file_name ++ [file_name], res.local_path ++ [file_name],
    res.title ++ [g.title], res.description ++ [g.description],
    res.tags ++ [g.tags]⟩

/-- The four text-generation calls of the row body (lines 224-231), in
order.  Each call may raise (a propagated `RequestError`, or the
`AttributeError` from `.replace` on `None`); the first failure aborts the
row body with an uncaught exception, modelled as `Except.error ()`. -/
def rowText (api : MistralAPI) (w : RowWorld) (detail : String) :
    Except Unit GeneratedContent :=
  match generate_title api w.titleResp detail with
  | TextResult.ok title =>
    match generate_description api w.descResp detail title with
    | TextResult.ok description =>
      match generate_image_prompt api w.imgPromptResp detail with
      | TextResult.ok imagePrompt =>
        match generate_tags api w.tagsResp detail with
        | TextResult.ok tags => Except.ok ⟨title, description, imagePrompt, tags⟩
        | _ => Except.error ()
      | _ => Except.error ()
    | _ => Except.error ()
  | _ => Except.error ()

/-- One iteration of the `for idx, row in df.iterrows()` loop of `main`
(lines 220-244).  `files` accumulates the image files written by
`image.save(file_name)`.  Text generation failures propagate
(`Except.error`); an image failure leaves both `results` and the file
system untouched (`if image:` is false on `None`). -/
def processRow (api : MistralAPI) (w : RowWorld) (idx : Nat) (detail : String)
    (res : Results) (files : List String) :
    Except Unit (Results × List String) :=
  match rowText api w detail with
  | Except.error e => Except.error e
  | Except.ok g =>
    match generate_image w.imageResp with
    | (some _image, _image_url) =>
        let file_name := imageName idx
        Except.ok (appendResult res file_name g, files ++ [file_name])
    | (none, _) => Except.ok (res, files)

/-- The whole row loop of `main`: rows are the `details` column values
paired with their external-world behaviour, `idx` the positional index
`df.iterrows()` yields (a `RangeIndex` starting at 0). -/
def mainLoop (api : MistralAPI) :
    List (String × RowWorld) → Nat → Results → List String →
      Except Unit (Results × List String)
  | [], _, res, files => Except.ok (res, files)
  | (detail, w) :: rest, idx, res, files =>
    match processRow api w idx detail res files with
    | Except.error e => Except.error e
    | Except.ok (res2, files2) => mainLoop api rest (idx + 1) res2 files2

/-- The row loop as `main` enters it: index 0, empty accumulator, no image
files written yet. -/
def runBatch (api : MistralAPI) (rows : List (String × RowWorld)) :
    Except Unit (Results × List String) :=
  mainLoop api rows 0 emptyResults []

/-- The output table `product_information.csv` (lines 247-248): written only
when the row loop finishes without an uncaught exception. -/
def writtenTable (api : MistralAPI) (rows : List (String × RowWorld)) :
    Option Results :=
  match runBatch api rows with
  | Except.ok (res, _) => some res
  | Except.error _ => none

/-- The credential environment variables named in the module docstring
(lines 10-12): `MISTRAL_API_KEY` for the text service and
`TOGETHER_API_KEY` for the image service; `none` models an unset
variable (`os.getenv` returning `None`). -/
structure Env where
  mistral_api_key : Option String
  together_api_key : Option String
deriving DecidableEq, Repr

/-- The startup validation of `main` (lines 190-193):
`mistral_api_key = os.getenv('MISTRAL_API_KEY')` followed by
`if not mistral_api_key: raise ValueError(...)`.  Python's `not` is true on
both `None` and the empty string.  No code in `main` reads or checks
`TOGETHER_API_KEY`; the `Together()` client is constructed without any
check in this repository. -/
def validateStartup (env : Env) : Except String String :=
  match env.mistral_api_key with
  | none => Except.error "MISTRAL_API_KEY environment variable is not set"
  | some k =>
      if k.isEmpty then
        Except.error "MISTRAL_API_KEY environment variable is not set"
      else Except.ok k

/-! ## Helper lemmas -/

/-- If every attempt is answered with a 429, the retry loop is exhausted by
the `continue` branch and `_make_request` falls off the end of the function. -/
theorem makeRequestGo_all429 (api : MistralAPI) (resp : Nat → Outcome)
    (h : ∀ j, (resp j).is429 = true) :
    ∀ attempts evs, (makeRequestGo api resp attempts evs).1 = ReqResult.noneReturn := by
  intro attempts
  induction attempts with
  | nil => intro evs; rfl
  | cons a rest ih =>
    intro evs
    cases ha : resp a with
    | status429 ra => simp [makeRequestGo, ha, ih]
    | exn => have hb := h a; rw [ha] at hb; simp [Outcome.is429] at hb
    | ok s => have hb := h a; rw [ha] at hb; simp [Outcome.is429] at hb

/-! ## Claims about the retry loop -/

/-- C2: when every attempt fails with a non-429 error, `_make_request`
issues exactly 3 requests (the default budget), sleeps the fixed
`retry_delay` of 2 seconds between consecutive attempts, and re-raises the
error only after the budget is exhausted. -/
theorem C2_nonRateLimit_failures_raise_after_three_attempts
    (prompt : String) (resp : Nat → Outcome) (h : ∀ j, resp j = Outcome.exn) :
    makeRequest mistralDefault prompt resp =
      (ReqResult.raised, [Ev.req 0, Ev.slp 2, Ev.req 1, Ev.slp 2, Ev.req 2]) := by
  have hr : resp = fun _ => Outcome.exn := funext h
  subst hr
  rfl

/-- Witness for C2 at the constant failing oracle. -/
theorem C2_witness :
    makeRequest mistralDefault "p" (fun _ => Outcome.exn) =
      (ReqResult.raised, [Ev.req 0, Ev.slp 2, Ev.req 1, Ev.slp 2, Ev.req 2]) :=
  C2_nonRateLimit_failures_raise_after_three_attempts "p" (fun _ => Outcome.exn)
    (fun _ => rfl)

/-- C3: if every loop iteration receives a 429, `_make_request` returns
`None` (the loop falls off the end) instead of raising or returning a
string, and the caller `generate_title` then fails with the
`AttributeError` of `.replace` on `None` rather than a `RequestError`. -/
theorem C3_all429_returns_none (prompt detail : String) (resp : Nat → Outcome)
    (h : ∀ j, (resp j).is429 = true) :
    (makeRequest mistralDefault prompt resp).1 = ReqResult.noneReturn ∧
      generate_title mistralDefault resp detail = TextResult.noneTypeError := by
  refine ⟨makeRequestGo_all429 _ _ h _ _, ?_⟩
  have h2 : (makeRequest mistralDefault (titlePrompt detail) resp).1 =
      ReqResult.noneReturn := makeRequestGo_all429 _ _ h _ _
  unfold generate_title
  rw [h2]

/-- Witness for C3 at the constant 429 oracle. -/
theorem C3_witness :
    (makeRequest mistralDefault "p" (fun _ => Outcome.status429 none)).1 =
        ReqResult.noneReturn ∧
      generate_title mistralDefault (fun _ => Outcome.status429 none) "d" =
        TextResult.noneTypeError :=
  C3_all429_returns_none "p" "d" (fun _ => Outcome.status429 none) (fun _ => rfl)

/-- C8: on a 429 the client sleeps exactly the numeric `Retry-After` header
value when it is present, and `retry_delay * (attempt + 1)` when it is
absent, and then issues the next request. -/
theorem C8_429_sleep_duration (api : MistralAPI) (resp : Nat → Outcome)
    (attempt : Nat) (rest : List Nat) (evs : List Ev) :
    (∀ n, resp attempt = Outcome.status429 (some n) →
      makeRequestGo api resp (attempt :: rest) evs =
        makeRequestGo api resp rest (evs ++ [Ev.req attempt, Ev.slp n])) ∧
    (resp attempt = Outcome.status429 none →
      makeRequestGo api resp (attempt :: rest) evs =
        makeRequestGo api resp rest
          (evs ++ [Ev.req attempt, Ev.slp (api.retry_delay * (attempt + 1))])) := by
  constructor
  · intro n hn
    simp [makeRequestGo, hn]
  · intro hn
    simp [makeRequestGo, hn]

/-- Witness for C8: a served `Retry-After` of 7 on attempt 0, and the
fallback `2 * (0 + 1)` when the header is absent. -/
theorem C8_witness :
    (makeRequestGo mistralDefault (fun _ => Outcome.status429 (some 7)) [0, 1, 2] [] =
      makeRequestGo mistralDefault (fun _ => Outcome.status429 (some 7)) [1, 2]
        ([] ++ [Ev.req 0, Ev.slp 7])) ∧
    (makeRequestGo mistralDefault (fun _ => Outcome.status429 none) [0, 1, 2] [] =
      makeRequestGo mistralDefault (fun _ => Outcome.status429 none) [1, 2]
        ([] ++ [Ev.req 0, Ev.slp (mistralDefault.retry_delay * (0 + 1))])) :=
  ⟨(C8_429_sleep_duration mistralDefault (fun _ => Outcome.status429 (some 7))
      0 [1, 2] []).1 7 rfl,
    (C8_429_sleep_duration mistralDefault (fun _ => Outcome.status429 none)
      0 [1, 2] []).2 rfl⟩

/-- Modelled from claim C1 and spec section 4.1: a retry loop in which a
429 response does not count against the retry budget.  `attempt` counts
loop iterations (it drives the backoff multiplier), `fails` counts only
non-429 failures, and only `fails` is measured against `max_retries`.
Under these semantics an unbroken stream of 429 responses loops forever,
so a `fuel` bound (absent from the spec) is added to make the function
total; the claims evaluated on it never reach fuel 0. -/
def makeRequestSpecGo (api : MistralAPI) (resp : Nat → Outcome) :
    Nat → Nat → Nat → List Ev → ReqResult × List Ev
  | 0, _, _, evs => (ReqResult.noneReturn, evs)
  | fuel + 1, attempt, fails, evs =>
    match resp attempt with
    | Outcome.status429 ra =>
        makeRequestSpecGo api resp fuel (attempt + 1) fails
          (evs ++ [Ev.req attempt, Ev.slp (ra.getD (api.retry_delay * (attempt + 1)))])
    | Outcome.ok content => (ReqResult.value (pyStrip content), evs ++ [Ev.req attempt])
    | Outcome.exn =>
        if fails < api.max_retries - 1 then
          makeRequestSpecGo api resp fuel (attempt + 1) (fails + 1)
            (evs ++ [Ev.req attempt, Ev.slp api.retry_delay])
        else (ReqResult.raised, evs ++ [Ev.req attempt])

/-- Entry point of the claim-C1 semantics, mirroring `makeRequest`. -/
def makeRequestSpec (api : MistralAPI) (prompt : String) (resp : Nat → Outcome)
    (fuel : Nat) : ReqResult × List Ev :=
  makeRequestSpecGo api resp fuel 0 0 []

/-- Oracle refuting C1: two 429 responses, then one repeatable non-429
failure, then success. -/
def c1resp : Nat → Outcome := fun n =>
  if n < 2 then Outcome.status429 (some 1)
  else if n = 2 then Outcome.exn
  else Outcome.ok "X"

/-- C1 counterexample: on an oracle answering 429, 429, then a non-429
failure (and success afterwards), the code raises — the single non-429
failure exhausts the budget because the two 429 iterations also consumed
loop iterations — whereas the claim's semantics (429 never decrements the
remaining retries, non-429 failures alone exhaust the budget) retries past
the failure and succeeds. -/
theorem C1_counterexample :
    (makeRequest mistralDefault "p" c1resp).1 = ReqResult.raised ∧
      (makeRequestSpec mistralDefault "p" c1resp 10).1 = ReqResult.value "X" := by
  constructor <;> decide

/-- C1 amended: the 429 branch itself never raises — after sleeping the
loop continues with the next iteration — but the 429 iteration does consume
one of the `max_retries` loop iterations, so 429 responses and non-429
failures together exhaust the budget; in particular, after two 429s a
single non-429 failure on the last iteration raises immediately. -/
theorem C1_amended_429_consumes_iteration (resp : Nat → Outcome) :
    (∀ attempt rest evs ra, resp attempt = Outcome.status429 ra →
      makeRequestGo mistralDefault resp (attempt :: rest) evs =
        makeRequestGo mistralDefault resp rest (evs ++ [Ev.req attempt,
          Ev.slp (ra.getD (mistralDefault.retry_delay * (attempt + 1)))])) ∧
    (∀ prompt ra0 ra1, resp 0 = Outcome.status429 ra0 →
      resp 1 = Outcome.status429 ra1 → resp 2 = Outcome.exn →
      (makeRequest mistralDefault prompt resp).1 = ReqResult.raised) := by
  constructor
  · intro attempt rest evs ra hra
    simp [makeRequestGo, hra]
  · intro prompt ra0 ra1 h0 h1 h2
    have hr : List.range mistralDefault.max_retries = [0, 1, 2] := rfl
    unfold makeRequest
    rw [hr]
    simp [makeRequestGo, h0, h1, h2, mistralDefault]

/-- Witness for the amended C1 at the counterexample oracle. -/
theorem C1_witness :
    (makeRequestGo mistralDefault c1resp [0, 1, 2] [] =
      makeRequestGo mistralDefault c1resp [1, 2]
        ([] ++ [Ev.req 0, Ev.slp ((some 1).getD (mistralDefault.retry_delay * (0 + 1)))])) ∧
    (makeRequest mistralDefault "p" c1resp).1 = ReqResult.raised :=
  ⟨(C1_amended_429_consumes_iteration c1resp).1 0 [1, 2] [] (some 1) rfl,
    (C1_amended_429_consumes_iteration c1resp).2 "p" (some 1) (some 1) rfl rfl rfl⟩

/-! ## Helper lemmas for the orchestration claims -/

/-- `stripQuotes` leaves no double-quote character in its output. -/
theorem stripQuotes_no_quote (s : String) : quoteChar ∉ (stripQuotes s).data := by
  intro hmem
  simp only [stripQuotes] at hmem
  have := List.of_mem_filter hmem
  simp at this

set_option maxRecDepth 8000 in
/-- The fixed HTML template contains no double-quote character. -/
theorem template_no_quote : quoteChar ∉ template_description.data := by decide

/-- A successful `generate_description` result is some prefix followed by
the fixed template. -/
theorem generate_description_suffix (api : MistralAPI) (resp : Nat → Outcome)
    (detail title d : String)
    (h : generate_description api resp detail title = TextResult.ok d) :
    ∃ p, d = p ++ template_description := by
  unfold generate_description at h
  cases hm : (makeRequest api (descriptionPrompt detail title) resp).1 with
  | value s =>
      rw [hm] at h
      exact ⟨stripQuotes s, by injection h with h; exact h.symm⟩
  | raised => rw [hm] at h; exact absurd h (by simp)
  | noneReturn => rw [hm] at h; exact absurd h (by simp)

/-- A successful `rowText` carries a description that ends with the fixed
template. -/
theorem rowText_description_suffix (api : MistralAPI) (w : RowWorld)
    (detail : String) (g : GeneratedContent)
    (h : rowText api w detail = Except.ok g) :
    ∃ p, g.description = p ++ template_description := by
  unfold rowText at h
  cases ht : generate_title api w.titleResp detail with
  | requestError => simp only [ht] at h; exact Except.noConfusion h
  | noneTypeError => simp only [ht] at h; exact Except.noConfusion h
  | ok title =>
    simp only [ht] at h
    cases hd : generate_description api w.descResp detail title with
    | requestError => simp only [hd] at h; exact Except.noConfusion h
    | noneTypeError => simp only [hd] at h; exact Except.noConfusion h
    | ok description =>
      simp only [hd] at h
      cases hip : generate_image_prompt api w.imgPromptResp detail with
      | requestError => simp only [hip] at h; exact Except.noConfusion h
      | noneTypeError => simp only [hip] at h; exact Except.noConfusion h
      | ok imagePrompt =>
        simp only [hip] at h
        cases htg : generate_tags api w.tagsResp detail with
        | requestError => simp only [htg] at h; exact Except.noConfusion h
        | noneTypeError => simp only [htg] at h; exact Except.noConfusion h
        | ok tags =>
          simp only [htg] at h
          injection h with h
          obtain ⟨p, hp⟩ := generate_description_suffix api w.descResp detail
            title description hd
          exact ⟨p, by rw [← h]; exact hp⟩

/-- Every description in the accumulator ends with the fixed template. -/
def DescOk (res : Results) : Prop :=
  ∀ d ∈ res.description, ∃ p, d = p ++ template_description

/-- The row loop preserves `DescOk`: rows only ever append descriptions
produced by `generate_description`. -/
theorem mainLoop_descOk (api : MistralAPI) :
    ∀ (rows : List (String × RowWorld)) (idx : Nat) (res : Results)
      (files : List String) (res' : Results) (files' : List String),
      mainLoop api rows idx res files = Except.ok (res', files') →
      DescOk res → DescOk res' := by
  intro rows
  induction rows with
  | nil =>
    intro idx res files res' files' h hres
    simp only [mainLoop] at h
    injection h with h
    injection h with h1 h2
    subst h1
    exact hres
  | cons head rest ih =>
    obtain ⟨detail, w⟩ := head
    intro idx res files res' files' h hres
    simp only [mainLoop] at h
    cases hp : processRow api w idx detail res files with
    | error e => simp only [hp] at h; exact Except.noConfusion h
    | ok p =>
      obtain ⟨res2, files2⟩ := p
      simp only [hp] at h
      refine ih (idx + 1) res2 files2 res' files' h ?_
      unfold processRow at hp
      cases hr : rowText api w detail with
      | error e => simp only [hr] at hp; exact Except.noConfusion hp
      | ok g =>
        simp only [hr] at hp
        cases himg : w.imageResp with
        | exn =>
          simp only [himg, generate_image] at hp
          injection hp with hp
          injection hp with h1 h2
          subst h1
          exact hres
        | ok img url =>
          simp only [himg, generate_image] at hp
          injection hp with hp
          injection hp with h1 h2
          subst h1
          intro d hd
          simp only [appendResult, List.mem_append, List.mem_singleton] at hd
          rcases hd with hd | hd
          · exact hres d hd
          · subst hd
            exact rowText_description_suffix api w detail g hr

/-! ## Claims about the orchestration loop -/

/-- C4: when the four text generations of a row succeed but the image round
trip raises, the exception is caught inside `generate_image`, the image
result is `None`, no result record is appended, no image file is written,
and the loop moves on to the next row unchanged. -/
theorem C4_image_failure_skips_row (api : MistralAPI) (w : RowWorld) (idx : Nat)
    (detail : String) (res : Results) (files : List String)
    (g : GeneratedContent) (rest : List (String × RowWorld))
    (hg : rowText api w detail = Except.ok g)
    (himg : w.imageResp = ImageOutcome.exn) :
    generate_image w.imageResp = (none, none) ∧
      processRow api w idx detail res files = Except.ok (res, files) ∧
      mainLoop api ((detail, w) :: rest) idx res files =
        mainLoop api rest (idx + 1) res files := by
  have hge : generate_image w.imageResp = (none, none) := by
    rw [himg]
    rfl
  have hp : processRow api w idx detail res files = Except.ok (res, files) := by
    unfold processRow
    rw [hg, hge]
  refine ⟨hge, hp, ?_⟩
  simp only [mainLoop]
  rw [hp]

/-- External-world behaviour used by witnesses: every text request is
answered `"X"` on the first attempt, and the image round trip behaves as
`img`. -/
def okTextWorld (img : ImageOutcome) : RowWorld :=
  ⟨fun _ => Outcome.ok "X", fun _ => Outcome.ok "X",
    fun _ => Outcome.ok "X", fun _ => Outcome.ok "X", img⟩

/-- A concrete decoded image object for witnesses. -/
def sampleImage : PILImage := ⟨[1]⟩

/-- The content the `okTextWorld` oracles make each row generate. -/
def sampleGenerated : GeneratedContent :=
  ⟨"X", "X" ++ template_description, "X", "X"⟩

/-- Witness for C4 at a concrete row whose image generation raises. -/
theorem C4_witness :
    generate_image (okTextWorld ImageOutcome.exn).imageResp = (none, none) ∧
      processRow mistralDefault (okTextWorld ImageOutcome.exn) 0 "d"
        emptyResults [] = Except.ok (emptyResults, []) ∧
      mainLoop mistralDefault
          (("d", okTextWorld ImageOutcome.exn) :: [("e", okTextWorld ImageOutcome.exn)])
          0 emptyResults [] =
        mainLoop mistralDefault [("e", okTextWorld ImageOutcome.exn)] 1
          emptyResults [] :=
  C4_image_failure_skips_row mistralDefault (okTextWorld ImageOutcome.exn) 0 "d"
    emptyResults [] sampleGenerated [("e", okTextWorld ImageOutcome.exn)]
    rfl rfl

/-- If some row's text generation fails, the whole loop fails: the only way
`mainLoop` returns a result is that every row's text generation succeeded. -/
theorem mainLoop_error_of_mem (api : MistralAPI) :
    ∀ (rows : List (String × RowWorld)) (idx : Nat) (res : Results)
      (files : List String),
      (∃ r ∈ rows, rowText api r.2 r.1 = Except.error ()) →
      mainLoop api rows idx res files = Except.error () := by
  intro rows
  induction rows with
  | nil =>
    intro idx res files h
    obtain ⟨r, hr, _⟩ := h
    exact absurd hr (by simp)
  | cons head rest ih =>
    obtain ⟨detail, w⟩ := head
    intro idx res files h
    obtain ⟨r, hr, hfail⟩ := h
    simp only [mainLoop]
    rcases List.mem_cons.mp hr with heq | hmem
    · subst heq
      unfold processRow
      rw [hfail]
    · cases hp : processRow api w idx detail res files with
      | error e => cases e; rfl
      | ok p =>
        obtain ⟨res2, files2⟩ := p
        exact ih (idx + 1) res2 files2 ⟨r, hmem, hfail⟩

/-- C5: a text-generation failure in any row is not recovered per row: it
propagates out of the loop, the batch aborts, and no output table is
written for any row. -/
theorem C5_text_failure_aborts_batch (api : MistralAPI)
    (rows : List (String × RowWorld))
    (h : ∃ r ∈ rows, rowText api r.2 r.1 = Except.error ()) :
    runBatch api rows = Except.error () ∧ writtenTable api rows = none := by
  have hb : runBatch api rows = Except.error () :=
    mainLoop_error_of_mem api rows 0 emptyResults [] h
  exact ⟨hb, by unfold writtenTable; rw [hb]⟩

/-- A row whose title request fails with a repeated non-429 error while
everything else would succeed. -/
def failTitleWorld : RowWorld :=
  ⟨fun _ => Outcome.exn, fun _ => Outcome.ok "X", fun _ => Outcome.ok "X",
    fun _ => Outcome.ok "X", ImageOutcome.ok sampleImage "u"⟩

/-- Witness for C5 at a batch whose second row's title generation fails. -/
theorem C5_witness :
    runBatch mistralDefault
        [("d", okTextWorld (ImageOutcome.ok sampleImage "u")), ("e", failTitleWorld)] =
        Except.error () ∧
      writtenTable mistralDefault
        [("d", okTextWorld (ImageOutcome.ok sampleImage "u")), ("e", failTitleWorld)] =
        none :=
  C5_text_failure_aborts_batch mistralDefault
    [("d", okTextWorld (ImageOutcome.ok sampleImage "u")), ("e", failTitleWorld)]
    ⟨("e", failTitleWorld), by simp, rfl⟩

/-- C6: a successful `generate_description` returns exactly the
quote-stripped model output with the fixed HTML template appended, and
consequently every description in the output table ends with that
template. -/
theorem C6_description_ends_with_template (api : MistralAPI)
    (rows : List (String × RowWorld)) (res : Results) (files : List String)
    (h : runBatch api rows = Except.ok (res, files)) :
    (∀ (resp : Nat → Outcome) (detail title s : String),
        (makeRequest api (descriptionPrompt detail title) resp).1 =
          ReqResult.value s →
        generate_description api resp detail title =
          TextResult.ok (stripQuotes s ++ template_description)) ∧
    ∀ d ∈ res.description, ∃ p, d = p ++ template_description := by
  constructor
  · intro resp detail title s hs
    unfold generate_description
    rw [hs]
  · exact mainLoop_descOk api rows 0 emptyResults [] res files h
      (by intro d hd; exact absurd hd (by simp [emptyResults]))

/-- Witness for C6 at a one-row batch whose model output is `"X"`. -/
theorem C6_witness :
    ∃ p, ("X" ++ template_description) = p ++ template_description :=
  (C6_description_ends_with_template mistralDefault
      [("d", okTextWorld (ImageOutcome.ok sampleImage "u"))]
      (appendResult emptyResults (imageName 0) sampleGenerated) [imageName 0]
      rfl).2
    ("X" ++ template_description) (by simp [appendResult, emptyResults, sampleGenerated])

/-- C7: a successful result of any of the four generate operations never
contains a double-quote character: the `.replace` post-processing removes
every one from the model output, and the appended template contains none. -/
theorem C7_no_quote_in_generated (api : MistralAPI) (resp : Nat → Outcome)
    (detail title r : String) :
    (generate_title api resp detail = TextResult.ok r → quoteChar ∉ r.data) ∧
    (generate_description api resp detail title = TextResult.ok r →
      quoteChar ∉ r.data) ∧
    (generate_image_prompt api resp detail = TextResult.ok r → quoteChar ∉ r.data) ∧
    (generate_tags api resp detail = TextResult.ok r → quoteChar ∉ r.data) := by
  refine ⟨?_, ?_, ?_, ?_⟩
  · intro h
    unfold generate_title at h
    cases hm : (makeRequest api (titlePrompt detail) resp).1 with
    | value s =>
        rw [hm] at h; injection h with h; subst h; exact stripQuotes_no_quote s
    | raised => rw [hm] at h; exact absurd h (by simp)
    | noneReturn => rw [hm] at h; exact absurd h (by simp)
  · intro h
    unfold generate_description at h
    cases hm : (makeRequest api (descriptionPrompt detail title) resp).1 with
    | value s =>
        rw [hm] at h; injection h with h; subst h
        rw [String.data_append]
        intro hmem
        rcases List.mem_append.mp hmem with hmem | hmem
        · exact stripQuotes_no_quote s hmem
        · exact template_no_quote hmem
    | raised => rw [hm] at h; exact absurd h (by simp)
    | noneReturn => rw [hm] at h; exact absurd h (by simp)
  · intro h
    unfold generate_image_prompt at h
    cases hm : (makeRequest api (imagePromptPrompt detail) resp).1 with
    | value s =>
        rw [hm] at h; injection h with h; subst h; exact stripQuotes_no_quote s
    | raised => rw [hm] at h; exact absurd h (by simp)
    | noneReturn => rw [hm] at h; exact absurd h (by simp)
  · intro h
    unfold generate_tags at h
    cases hm : (makeRequest api (tagsPrompt detail) resp).1 with
    | value s =>
        rw [hm] at h; injection h with h; subst h; exact stripQuotes_no_quote s
    | raised => rw [hm] at h; exact absurd h (by simp)
    | noneReturn => rw [hm] at h; exact absurd h (by simp)

/-- Witness for C7 at a model output that contains a double quote: the
returned title is the output with the quote removed, and contains none. -/
theorem C7_witness :
    quoteChar ∉ (stripQuotes (pyStrip "a\x22b")).data :=
  (C7_no_quote_in_generated mistralDefault
      (fun _ => Outcome.ok "a\x22b") "d" "t" (stripQuotes (pyStrip "a\x22b"))).1
    (by decide)

/-- The image file names the loop persists, in input order: one
`image_{idx}.png` per row whose image round trip succeeds, none for the
others (`idx` is the row's positional index). -/
def expectedNames (idx : Nat) : List (String × RowWorld) → List String
  | [] => []
  | (_, w) :: rest =>
    if w.imageResp.succeeds then imageName idx :: expectedNames (idx + 1) rest
    else expectedNames (idx + 1) rest

/-- Characterisation of a completed loop run: `file_name`, `local_path` and
the set of written image files all extend their initial values by exactly
`expectedNames`. -/
theorem mainLoop_names (api : MistralAPI) :
    ∀ (rows : List (String × RowWorld)) (idx : Nat) (res : Results)
      (files : List String) (res' : Results) (files' : List String),
      mainLoop api rows idx res files = Except.ok (res', files') →
      res'.file_name = res.file_name ++ expectedNames idx rows ∧
        res'.local_path = res.local_path ++ expectedNames idx rows ∧
        files' = files ++ expectedNames idx rows := by
  intro rows
  induction rows with
  | nil =>
    intro idx res files res' files' h
    simp only [mainLoop] at h
    injection h with h
    injection h with h1 h2
    subst h1
    subst h2
    simp [expectedNames]
  | cons head rest ih =>
    obtain ⟨detail, w⟩ := head
    intro idx res files res' files' h
    simp only [mainLoop] at h
    cases hp : processRow api w idx detail res files with
    | error e => simp only [hp] at h; exact Except.noConfusion h
    | ok p =>
      obtain ⟨res2, files2⟩ := p
      simp only [hp] at h
      obtain ⟨ih1, ih2, ih3⟩ := ih (idx + 1) res2 files2 res' files' h
      unfold processRow at hp
      cases hr : rowText api w detail with
      | error e => simp only [hr] at hp; exact Except.noConfusion hp
      | ok g =>
        simp only [hr] at hp
        cases himg : w.imageResp with
        | exn =>
          simp only [himg, generate_image] at hp
          injection hp with hp
          injection hp with h1 h2
          subst h1
          subst h2
          simp only [expectedNames, himg, ImageOutcome.succeeds, if_neg,
            Bool.false_eq_true, not_false_iff]
          exact ⟨ih1, ih2, ih3⟩
        | ok img url =>
          simp only [himg, generate_image] at hp
          injection hp with hp
          injection hp with h1 h2
          subst h1
          subst h2
          rw [ih1, ih2, ih3]
          simp [expectedNames, himg, ImageOutcome.succeeds, appendResult]

/-- C9: when the loop completes, the output table's `file_name` and
`local_path` columns and the list of image files written are all exactly
one `image_{rowIndex}.png` entry per row whose image generation succeeded,
in input order. -/
theorem C9_persisted_rows_naming (api : MistralAPI)
    (rows : List (String × RowWorld)) (res : Results) (files : List String)
    (h : runBatch api rows = Except.ok (res, files)) :
    res.file_name = expectedNames 0 rows ∧
      res.local_path = expectedNames 0 rows ∧
      files = expectedNames 0 rows := by
  have hm := mainLoop_names api rows 0 emptyResults [] res files h
  simpa [emptyResults] using hm

/-- Witness for C9 at a two-row batch whose first image succeeds and whose
second image fails: exactly one record, named `image_0.png`. -/
theorem C9_witness :
    (appendResult emptyResults (imageName 0) sampleGenerated).file_name =
        expectedNames 0 [("d", okTextWorld (ImageOutcome.ok sampleImage "u")),
          ("e", okTextWorld ImageOutcome.exn)] ∧
      (appendResult emptyResults (imageName 0) sampleGenerated).local_path =
        expectedNames 0 [("d", okTextWorld (ImageOutcome.ok sampleImage "u")),
          ("e", okTextWorld ImageOutcome.exn)] ∧
      [imageName 0] =
        expectedNames 0 [("d", okTextWorld (ImageOutcome.ok sampleImage "u")),
          ("e", okTextWorld ImageOutcome.exn)] :=
  C9_persisted_rows_naming mistralDefault
    [("d", okTextWorld (ImageOutcome.ok sampleImage "u")),
      ("e", okTextWorld ImageOutcome.exn)]
    (appendResult emptyResults (imageName 0) sampleGenerated) [imageName 0] rfl

/-! ## Claims about startup validation -/

/-- C10 counterexample: an environment with the Mistral credential present
but the Together credential absent passes the startup validation — the
process does not fail fast on the absent Together credential, refuting the
claim that both credential variables are checked. -/
theorem C10_counterexample :
    validateStartup ⟨some "k", none⟩ = Except.ok "k" := rfl

/-- C10 amended: the startup validation checks only `MISTRAL_API_KEY` — its
outcome is independent of `TOGETHER_API_KEY` — and fails fast exactly when
the Mistral credential is absent or empty. -/
theorem C10_amended_only_mistral_checked (m t t' : Option String) :
    validateStartup ⟨m, t⟩ = validateStartup ⟨m, t'⟩ ∧
      (m = none → validateStartup ⟨m, t⟩ =
        Except.error "MISTRAL_API_KEY environment variable is not set") ∧
      (∀ k, m = some k → k.isEmpty = true → validateStartup ⟨m, t⟩ =
        Except.error "MISTRAL_API_KEY environment variable is not set") ∧
      (∀ k, m = some k → k.isEmpty = false →
        validateStartup ⟨m, t⟩ = Except.ok k) := by
  refine ⟨rfl, ?_, ?_, ?_⟩
  · intro hm
    subst hm
    rfl
  · intro k hm hk
    subst hm
    simp [validateStartup, hk]
  · intro k hm hk
    subst hm
    simp [validateStartup, hk]

/-- Witness for the amended C10: the validation ignores the Together
credential, rejects an unset and an empty Mistral credential, and accepts a
non-empty one. -/
theorem C10_witness :
    (validateStartup ⟨some "k", some "x"⟩ = validateStartup ⟨some "k", none⟩) ∧
      (validateStartup ⟨none, some "x"⟩ =
        Except.error "MISTRAL_API_KEY environment variable is not set") ∧
      (validateStartup ⟨some "", some "x"⟩ =
        Except.error "MISTRAL_API_KEY environment variable is not set") ∧
      (validateStartup ⟨some "k", none⟩ = Except.ok "k") :=
  ⟨(C10_amended_only_mistral_checked (some "k") (some "x") none).1,
    (C10_amended_only_mistral_checked none (some "x") none).2.1 rfl,
    (C10_amended_only_mistral_checked (some "") (some "x") none).2.2.1 "" rfl rfl,
    (C10_amended_only_mistral_checked (some "k") none (some "z")).2.2.2 "k" rfl rfl⟩

end ProdCreator
